import Mathlib

/-!
Verification of the Authentication & Account-Security Core of the backend
repository: a shallow embedding in Lean 4 of the credential record, the
crypto utility layer, the token service, the session middleware, the TOTP
(MFA) service and the authentication-flow controllers, together with
theorems settling the specification claims about them.

Modelling conventions:
* JavaScript strings are `List Char` (`Str`), so that the character-level
  operations of the source (`split(":")`, concatenation) are directly
  reasoned about.
* Timestamps are `Nat` milliseconds (`Date.now()`).
* bcrypt is modelled as an ideal password hash: `hashPassword` wraps the
  hashed value in an opaque-looking constructor and `comparePassword`
  succeeds exactly on the hashed value, which is precisely the compare
  semantics the source relies on (bcrypt's internal salting only affects
  the hash representation, not compare behaviour).
* The Node `crypto` cipher (AES-256-GCM) is external library code; it is
  modelled as an ideal authenticated cipher: ciphertext is an injective
  hex encoding of the plaintext and the auth tag is a deterministic
  function of (derived key, iv, ciphertext).  The envelope construction,
  splitting, key derivation from (master key, salt) and tag checking are
  modelled exactly as the source performs them.
* JavaScript `null`/`undefined` values are `Option.none`; thrown errors
  that reach the controllers' catch blocks surface as a 500 response
  (the `next(error)` path).
* Random draws (salts, ivs, token issue times, backup-code bytes) are
  passed to the modelled operations as explicit arguments.
-/

namespace AuthCore

/-- JavaScript strings, modelled character by character. -/
abbrev Str := List Char

/-! ## JS `String.prototype.split(":")` -/

/-- JS `s.split(":")`: the list of maximal colon-free segments of `s`
(`"".split(":") = [""]`, `":::".split(":") = ["","","",""]`). -/
def splitColon : Str → List Str
  | [] => [[]]
  | c :: rest =>
    match splitColon rest with
    | [] => [[]]
    | p :: ps => if c = ':' then [] :: p :: ps else (c :: p) :: ps

/-! ## Hex encoding (model of `Buffer.toString("hex")` / `Buffer.from(_, "hex")`)

The source hex-encodes the random salt, iv, ciphertext and auth tag into the
envelope and decodes them back when decrypting.  Bytes are `Nat` values below
256; characters are encoded via the hex digit table. -/

/-- One lowercase hex digit of `n` (as `n.toString(16)` emits). -/
def toHex1 (n : Nat) : Char := Nat.digitChar (n % 16)

/-- Hex digit value of a character, `none` if not a lowercase hex digit. -/
def fromHex1 (c : Char) : Option Nat :=
  if c = '0' then some 0
  else if c = '1' then some 1
  else if c = '2' then some 2
  else if c = '3' then some 3
  else if c = '4' then some 4
  else if c = '5' then some 5
  else if c = '6' then some 6
  else if c = '7' then some 7
  else if c = '8' then some 8
  else if c = '9' then some 9
  else if c = 'a' then some 10
  else if c = 'b' then some 11
  else if c = 'c' then some 12
  else if c = 'd' then some 13
  else if c = 'e' then some 14
  else if c = 'f' then some 15
  else none

/-- Hex encoding of one byte: two digits. -/
def toHex2 (b : Nat) : Str := [toHex1 (b / 16), toHex1 (b % 16)]

/-- `buffer.toString("hex")` on a byte list. -/
def hexBytes : List Nat → Str
  | [] => []
  | b :: bs => toHex2 b ++ hexBytes bs

def parseHexPair (a b : Char) : Option Nat := do
  let hi ← fromHex1 a
  let lo ← fromHex1 b
  pure (16 * hi + lo)

/-- `Buffer.from(s, "hex")`: decode a hex string back into bytes. -/
def parseHexBytes : Str → Option (List Nat)
  | [] => some []
  | a :: b :: rest => do
    let v ← parseHexPair a b
    let r ← parseHexBytes rest
    pure (v :: r)
  | _ => none

/-! ## UTF-8 + hex model of the ciphertext segment

`cipher.update(plaintext, "utf8", "hex")` turns the plaintext into a hex
string.  The model encodes each character's code point as six hex digits
(code points are below `0x110000 < 16^6`), an injective colon-free encoding
with an executable inverse — exactly the properties the envelope format
relies on. -/

def toHex6 (n : Nat) : Str :=
  [toHex1 (n / 1048576 % 16), toHex1 (n / 65536 % 16), toHex1 (n / 4096 % 16),
   toHex1 (n / 256 % 16), toHex1 (n / 16 % 16), toHex1 (n % 16)]

/-- Model of the ciphertext production for a plaintext string. -/
def encodeStr : Str → Str
  | [] => []
  | c :: cs => toHex6 c.toNat ++ encodeStr cs

def parseHex6 (a b c d e f : Char) : Option Nat := do
  let d1 ← fromHex1 a
  let d2 ← fromHex1 b
  let d3 ← fromHex1 c
  let d4 ← fromHex1 d
  let d5 ← fromHex1 e
  let d6 ← fromHex1 f
  pure (d1 * 1048576 + d2 * 65536 + d3 * 4096 + d4 * 256 + d5 * 16 + d6)

/-- Model of ciphertext consumption back into the plaintext string. -/
def decodeStr : Str → Option Str
  | [] => some []
  | a :: b :: c :: d :: e :: f :: rest => do
    let n ← parseHex6 a b c d e f
    let s ← decodeStr rest
    pure (Char.ofNat n :: s)
  | _ => none

/-! ## `src/utils/encryption.js` — field-level encryption

`encryptField` draws a random salt and iv, derives a key from the master
secret (`process.env.ENCRYPTION_KEY`) and the salt, encrypts, and emits the
envelope `saltHex:ivHex:ciphertextHex:tagHex`.  Randomness is passed in as
the `salt`/`iv` arguments; the absent/present master key is an `Option`;
thrown errors are `Except.error`. -/

/-- Model of `pbkdf2Sync(masterKey, salt, 100000, 32, "sha256")`:
a deterministic key derivation from the master key and the salt. -/
def deriveKey (masterKey : Str) (salt : List Nat) : Str :=
  masterKey ++ ':' :: hexBytes salt

/-- Model of the AES-256-GCM authentication tag: a deterministic function of
the derived key, the iv and the ciphertext, emitted as hex digits. -/
def computeTag (key ivHex ct : Str) : Str :=
  toHex6 (((key ++ ivHex ++ ct).foldl (fun a c => a + c.toNat) 0 +
    257 * key.length + 17 * ct.length) % 16777216)

/-- `encryptField(plaintext)`; JS returns `null` for falsy input (the empty
string), throws when `ENCRYPTION_KEY` is unset, and otherwise returns the
four-segment envelope. -/
def encryptField (masterKey : Option Str) (salt iv : List Nat) (plaintext : Str) :
    Except Unit (Option Str) :=
  if plaintext = [] then .ok none
  else
    match masterKey with
    | none => .error ()
    | some mk =>
      let key := deriveKey mk salt
      let ct := encodeStr plaintext
      let tag := computeTag key (hexBytes iv) ct
      .ok (some (hexBytes salt ++ ':' :: (hexBytes iv ++ ':' :: (ct ++ ':' :: tag))))

/-- `decryptField(encryptedData)`; JS returns `null` for falsy input, throws
when the key is unset, the envelope does not split into 4 segments, or the
authentication tag does not match, and otherwise returns the plaintext. -/
def decryptField (masterKey : Option Str) (encryptedData : Option Str) :
    Except Unit (Option Str) :=
  match encryptedData with
  | none => .ok none
  | some d =>
    if d = [] then .ok none
    else
      match masterKey with
      | none => .error ()
      | some mk =>
        match splitColon d with
        | [saltHex, ivHex, ct, tag] =>
          match parseHexBytes saltHex with
          | none => .error ()
          | some salt =>
            let key := deriveKey mk salt
            if computeTag key ivHex ct = tag then
              match decodeStr ct with
              | some s => .ok (some s)
              | none => .error ()
            else .error ()
        | _ => .error ()

/-- `isEncrypted(value)` — the structural envelope check of the source:
falsy values are not encrypted, otherwise the value is encrypted exactly
when it splits on `":"` into exactly 4 segments. -/
def isEncrypted (value : Str) : Bool :=
  !value.isEmpty && (splitColon value).length == 4

/-- `decryptField(encryptField(s))`: the composition the spec's round-trip
property is about (the encryption error, if any, propagates). -/
def fieldRoundtrip (masterKey : Option Str) (salt iv : List Nat) (s : Str) :
    Except Unit (Option Str) :=
  match encryptField masterKey salt iv s with
  | .ok v => decryptField masterKey v
  | .error e => .error e

/-! ## bcrypt model (`hashPassword` / `comparePassword`) -/

/-- A bcrypt hash of a value of type `α` (password strings, refresh tokens,
backup codes).  The constructor plays the role of the one-way digest; the
type is opaque to every modelled operation except `comparePassword`. -/
structure BHash (α : Type) where
  digest : α
deriving DecidableEq, Repr

/-- `hashPassword(plain)` (also `bcrypt.hash` for backup codes). -/
def hashPassword {α : Type} (plain : α) : BHash α := ⟨plain⟩

/-- `comparePassword(plain, hash)` / `bcrypt.compare`: succeeds exactly when
the hash was produced from the plaintext. -/
def comparePassword {α : Type} [DecidableEq α] (plain : α) (h : BHash α) : Bool :=
  h.digest = plain

/-! ## `src/config/security.js` (the snapshot with session idle timeout) -/

def maxFailedAttempts : Nat := 5
def lockDuration : Nat := 5 * 60 * 1000
def sessionIdleTimeout : Nat := 15 * 60 * 1000
def accessTokenExpiryMs : Nat := 15 * 60 * 1000
def refreshTokenExpiryMs : Nat := 7 * 24 * 60 * 60 * 1000
def passwordExpiryMs : Nat := 90 * 24 * 60 * 60 * 1000

/-! ## `src/utils/constants.js` — messages and HTTP statuses used below -/

def INVALID_CREDENTIALS : String := "Invalid email or password"
def ACCOUNT_LOCKED : String := "Account locked due to multiple failed login attempts"
def EMAIL_NOT_VERIFIED : String := "Please verify your email before logging in"
def INVALID_TOKEN : String := "Invalid or expired token"
def UNAUTHORIZED_MSG : String := "Authentication required"
def LOGIN_SUCCESS : String := "Login successful"
def PASSWORD_RESET_SUCCESS : String := "Password reset successful"
def SERVER_ERROR : String := "Internal server error"

/-- The `{status, success, message, code}` shape of the JSON replies the
controllers produce (`code` is the optional distinguishable error code). -/
structure Resp where
  status : Nat
  success : Bool
  message : String
  code : Option String
deriving DecidableEq, Repr

def serverErrorResp : Resp := ⟨500, false, SERVER_ERROR, none⟩

/-! ## `src/services/token.service.js` -/

inductive Role where
  | user
  | admin
deriving DecidableEq, Repr

/-- A signed refresh JWT: payload `{id}` plus the standard `iat`/`exp`
claims.  Every value of this type models a token genuinely signed with the
refresh secret (forgery is outside the model); two signings with the same
payload and the same issue time produce the same token string, as `jwt.sign`
does. -/
structure RToken where
  id : Nat
  iat : Nat
  exp : Nat
deriving DecidableEq, Repr

/-- A signed access JWT: payload `{id, email, role}` plus `iat`/`exp`. -/
structure AToken where
  id : Nat
  email : Str
  role : Role
  iat : Nat
  exp : Nat
deriving DecidableEq, Repr

/-- `src/models/User.js`: the fields of the credential record that the
modelled operations read or write.  The schema has no `passwordHistory`
field and defines no `addToPasswordHistory` method (see `resetPassword`). -/
structure UserRec where
  id : Nat
  email : Str
  role : Role
  password : Option (BHash Str)
  isEmailVerified : Bool
  isSuspended : Bool
  failedLoginAttempts : Nat
  accountLockedUntil : Option Nat
  lastLogin : Option Nat
  totpEnabled : Bool
  totpVerified : Bool
  totpSecret : Option Str
  backupCodes : List (BHash Str)
  refreshTokenHash : Option (BHash RToken)
  refreshTokenExpires : Option Nat
  passwordChangedAt : Option Nat
  passwordExpiresAt : Option Nat
  passwordResetToken : Option Str
  passwordResetExpires : Option Nat
deriving DecidableEq, Repr

/-- `generateTokenPair(user)` at issue time `now`. -/
def generateTokenPair (u : UserRec) (now : Nat) : AToken × RToken :=
  (⟨u.id, u.email, u.role, now, now + accessTokenExpiryMs⟩,
   ⟨u.id, now, now + refreshTokenExpiryMs⟩)

/-- `verifyRefreshToken`: `jwt.verify` against the refresh secret; expired
tokens throw `"Refresh token expired"`.  All `RToken` values model correctly
signed tokens, so the only failure on them is expiry. -/
def verifyRefreshToken (t : RToken) (now : Nat) : Except Unit Nat :=
  if now < t.exp then .ok t.id else .error ()

/-! ## `src/models/User.js` — instance methods -/

/-- `user.isAccountLocked()`: `accountLockedUntil && accountLockedUntil > Date.now()`. -/
def isAccountLocked (u : UserRec) (now : Nat) : Bool :=
  match u.accountLockedUntil with
  | some l => now < l
  | none => false

/-- `user.incrementLoginAttempts()`. -/
def incrementLoginAttempts (u : UserRec) (now : Nat) : UserRec :=
  match u.accountLockedUntil with
  | some l =>
    if l < now then { u with failedLoginAttempts := 1, accountLockedUntil := none }
    else
      let n := u.failedLoginAttempts + 1
      { u with failedLoginAttempts := n,
               accountLockedUntil :=
                 if maxFailedAttempts ≤ n then some (now + lockDuration)
                 else u.accountLockedUntil }
  | none =>
    let n := u.failedLoginAttempts + 1
    { u with failedLoginAttempts := n,
             accountLockedUntil :=
               if maxFailedAttempts ≤ n then some (now + lockDuration)
               else u.accountLockedUntil }

/-- `user.resetLoginAttempts()`. -/
def resetLoginAttempts (u : UserRec) : UserRec :=
  { u with failedLoginAttempts := 0, accountLockedUntil := none }

/-- `user.isPasswordInHistory(newPassword)`: despite its name, the method
compares the candidate only against the *current* password hash. -/
def isPasswordInHistory (u : UserRec) (newPassword : Str) : Bool :=
  match u.password with
  | none => false
  | some h => comparePassword newPassword h

/-- A concrete verified, unlocked, unsuspended local user with password
`"p"`, used by the witnesses. -/
def sampleUser : UserRec :=
  { id := 1, email := ['a'], role := Role.user,
    password := some (hashPassword ['p']),
    isEmailVerified := true, isSuspended := false,
    failedLoginAttempts := 0, accountLockedUntil := none, lastLogin := none,
    totpEnabled := false, totpVerified := false, totpSecret := none,
    backupCodes := [], refreshTokenHash := none, refreshTokenExpires := none,
    passwordChangedAt := none, passwordExpiresAt := none,
    passwordResetToken := none, passwordResetExpires := none }

/-- A suspended, locked, email-unverified, passwordless record with TOTP
enabled and one stored backup-code hash, used by the witnesses. -/
def lockedTotpUser : UserRec :=
  { id := 1, email := ['a'], role := Role.user, password := none,
    isEmailVerified := false, isSuspended := true,
    failedLoginAttempts := 0, accountLockedUntil := some 999999999, lastLogin := none,
    totpEnabled := true, totpVerified := true, totpSecret := some ['s'],
    backupCodes := [hashPassword ['b']], refreshTokenHash := none,
    refreshTokenExpires := none, passwordChangedAt := none, passwordExpiresAt := none,
    passwordResetToken := none, passwordResetExpires := none }

/-! ## `auth.controller.js` — `login` -/

/-- Outcome of the `login` controller: the HTTP reply, whether the reply
asked for a TOTP challenge, the issued token pair (on full success), and the
stored user record after the call (`none` when no record matched the email). -/
structure LoginOut where
  resp : Resp
  requiresTOTP : Bool
  tokens : Option (AToken × RToken)
  user : Option UserRec
deriving DecidableEq, Repr

/-- `login(req)`: `found` is the result of `User.findOne({email})`, `pw` the
presented password, `now` the request time (also the token issue time). -/
def login (found : Option UserRec) (pw : Str) (now : Nat) : LoginOut :=
  match found with
  | none => ⟨⟨401, false, INVALID_CREDENTIALS, none⟩, false, none, none⟩
  | some u =>
    if u.isSuspended then
      ⟨⟨403, false, "Your account has been suspended", none⟩, false, none, some u⟩
    else if isAccountLocked u now then
      ⟨⟨401, false, ACCOUNT_LOCKED, none⟩, false, none, some u⟩
    else if !u.isEmailVerified then
      ⟨⟨403, false, EMAIL_NOT_VERIFIED, none⟩, false, none, some u⟩
    else
      match u.password with
      | none =>
        -- federated-only record: `bcrypt.compare(pw, undefined)` throws,
        -- reaching the error handler
        ⟨serverErrorResp, false, none, some u⟩
      | some h =>
        if !comparePassword pw h then
          ⟨⟨401, false, INVALID_CREDENTIALS, none⟩, false, none,
            some (incrementLoginAttempts u now)⟩
        else
          let u1 := resetLoginAttempts u
          if u1.totpEnabled then
            ⟨⟨200, true, "Please enter your authenticator code", none⟩, true, none, some u1⟩
          else
            let pair := generateTokenPair u1 now
            let u2 := { u1 with refreshTokenHash := some (hashPassword pair.2),
                                refreshTokenExpires := some (now + refreshTokenExpiryMs),
                                lastLogin := some now }
            ⟨⟨200, true, LOGIN_SUCCESS, none⟩, false, some pair, some u2⟩

/-! ## `auth.controller.js` — `refreshAccessToken` -/

structure RefreshOut where
  resp : Resp
  tokens : Option (AToken × RToken)
  user : Option UserRec
deriving DecidableEq, Repr

/-- `refreshAccessToken(req)`: `db` is `User.findById`, `presented` the
refresh token from the cookie/body, `now` the request time.  A failed
`jwt.verify` throws and surfaces through the error handler (500-class). -/
def refreshAccessToken (db : Nat → Option UserRec) (presented : Option RToken)
    (now : Nat) : RefreshOut :=
  match presented with
  | none => ⟨⟨401, false, UNAUTHORIZED_MSG, none⟩, none, none⟩
  | some t =>
    match verifyRefreshToken t now with
    | .error _ => ⟨serverErrorResp, none, none⟩
    | .ok uid =>
      match db uid with
      | none => ⟨⟨401, false, INVALID_TOKEN, none⟩, none, none⟩
      | some u =>
        match u.refreshTokenHash with
        | none => ⟨⟨401, false, INVALID_TOKEN, none⟩, none, some u⟩
        | some rh =>
          -- `user.refreshTokenExpires < Date.now()` (an absent date never
          -- compares below `now` in JS)
          if (match u.refreshTokenExpires with
              | some e => decide (e < now)
              | none => false) then
            ⟨⟨401, false, INVALID_TOKEN, none⟩, none, some u⟩
          else if !comparePassword t rh then
            ⟨⟨401, false, INVALID_TOKEN, none⟩, none, some u⟩
          else
            let pair := generateTokenPair u now
            let u2 := { u with refreshTokenHash := some (hashPassword pair.2),
                               refreshTokenExpires := some (now + refreshTokenExpiryMs) }
            ⟨⟨200, true, "Token refreshed successfully", none⟩, some pair, some u2⟩

/-- A one-record `User.findById` database. -/
def singleUserDb (u : UserRec) : Nat → Option UserRec :=
  fun i => if i = u.id then some u else none

/-! ## `auth.controller.js` — `resetPassword` -/

structure ResetOut where
  resp : Resp
  user : Option UserRec
deriving DecidableEq, Repr

/-- `resetPassword(req)`: `found` is the record matching the unexpired reset
token, `newPassword` the candidate.  The history check is
`isPasswordInHistory` (current hash only); pushing the old hash calls
`user.addToPasswordHistory`, a method the user model never defines, so for
any record that has a password the call raises a `TypeError` that reaches
the error handler before any mutation is saved. -/
def resetPassword (found : Option UserRec) (newPassword : Str) (now : Nat) : ResetOut :=
  match found with
  | none => ⟨⟨400, false, "Invalid or expired reset token", none⟩, none⟩
  | some u =>
    if isPasswordInHistory u newPassword then
      -- `securityConfig.password.historyLimit` is absent from the config,
      -- so the template literal interpolates `undefined`
      ⟨⟨400, false, "Cannot reuse your last undefined passwords", none⟩, some u⟩
    else
      match u.password with
      | some _ => ⟨serverErrorResp, some u⟩
      | none =>
        let u2 := { u with password := some (hashPassword newPassword),
                           passwordResetToken := none, passwordResetExpires := none,
                           passwordChangedAt := some now,
                           passwordExpiresAt := some (now + passwordExpiryMs),
                           refreshTokenHash := none, refreshTokenExpires := none }
        ⟨⟨200, true, PASSWORD_RESET_SUCCESS, none⟩, some u2⟩

/-! ## `src/services/totp.service.js` -/

/-- Model of the TOTP value for a secret at a 30-second time step: a
deterministic code, injective in the step for a fixed secret. -/
def totpCode (secret : Str) (step : Nat) : Str := secret ++ toHex6 step

/-- `verifyTOTPToken(token, secret)` — `speakeasy.totp.verify` with
`window = 1`: the token matches the code of some step within the drift
window around the current step. -/
def verifyTOTPToken (token secret : Str) (step window : Nat) : Bool :=
  (List.range (2 * window + 1)).any fun i => token = totpCode secret (step + i - window)

/-- `XXXX-XXXX` formatting of an 8-hex-character draw. -/
def formatBackupCode (draw : Str) : Str := draw.take 4 ++ '-' :: draw.drop 4

/-- `generateBackupCodes(count)`; `rand i` is the i-th random draw. -/
def generateBackupCodes (count : Nat) (rand : Nat → Str) : List Str :=
  (List.range count).map fun i => formatBackupCode (rand i)

/-- `hashBackupCode(code)` — `bcrypt.hash(code, 10)`. -/
def hashBackupCode (code : Str) : BHash Str := hashPassword code

/-- `verifyBackupCode(code, hashedCodes)`: the indexed linear scan of the
source, returning the first matching index; `some i` models
`{isValid: true, codeIndex: i}` and `none` models
`{isValid: false, codeIndex: -1}`. -/
def verifyBackupCode (code : Str) (hashedCodes : List (BHash Str)) : Option Nat :=
  match hashedCodes with
  | [] => none
  | h :: rest =>
    if comparePassword code h then some 0
    else (verifyBackupCode code rest).map (· + 1)

/-! ## `totp.controller.js` -/

structure EnableTotpOut where
  resp : Resp
  backupCodesPlain : Option (List Str)
  user : Option UserRec
deriving DecidableEq, Repr

/-- `verifyAndEnableTOTP(req)`: validates the submitted code against the
pending secret and, on success, enables TOTP and stores the 10 freshly
drawn backup codes as bcrypt hashes, returning their plaintext in the
response body (the only time they leave the server unhashed). -/
def verifyAndEnableTOTP (found : Option UserRec) (token : Str) (step : Nat)
    (rand : Nat → Str) : EnableTotpOut :=
  if token = [] then ⟨⟨400, false, "TOTP token is required", none⟩, none, found⟩
  else
    match found with
    | none => ⟨⟨404, false, "User not found", none⟩, none, none⟩
    | some u =>
      match u.totpSecret with
      | none => ⟨⟨400, false, "Please setup TOTP first", none⟩, none, some u⟩
      | some secret =>
        if !verifyTOTPToken token secret step 1 then
          ⟨⟨400, false, "Invalid TOTP token", none⟩, none, some u⟩
        else
          let backupCodes := generateBackupCodes 10 rand
          let hashed := backupCodes.map hashBackupCode
          let u2 := { u with totpEnabled := true, totpVerified := true,
                             backupCodes := hashed }
          ⟨⟨200, true, "TOTP enabled successfully", none⟩, some backupCodes, some u2⟩

structure TotpLoginOut where
  resp : Resp
  tokens : Option (AToken × RToken)
  usedBackupCode : Bool
  remainingBackupCodes : Option Nat
  user : Option UserRec
deriving DecidableEq, Repr

/-- The token-issuance tail of `verifyTOTPLogin` once the code was accepted. -/
def totpIssueTokens (u : UserRec) (usedBackup : Bool) (now : Nat) : TotpLoginOut :=
  let pair := generateTokenPair u now
  let u2 := { u with refreshTokenHash := some (hashPassword pair.2),
                     refreshTokenExpires := some (now + refreshTokenExpiryMs),
                     lastLogin := some now }
  ⟨⟨200, true, LOGIN_SUCCESS, none⟩, some pair, usedBackup,
    some u2.backupCodes.length, some u2⟩

/-- `verifyTOTPLogin(req)` (`POST /api/totp/verify-login`, a public route):
looks the user up by email alone and checks only `totpEnabled` plus the
submitted TOTP code or backup code before issuing a full token pair.  A
matched backup code is spliced out of the stored hashed list. -/
def verifyTOTPLogin (found : Option UserRec) (email token : Str)
    (useBackupCode : Bool) (step : Nat) (now : Nat) : TotpLoginOut :=
  if email = [] ∨ token = [] then
    ⟨⟨400, false, "Email and token are required", none⟩, none, false, none, found⟩
  else
    match found with
    | none => ⟨⟨401, false, INVALID_CREDENTIALS, none⟩, none, false, none, none⟩
    | some u =>
      if !u.totpEnabled then
        ⟨⟨400, false, "TOTP is not enabled for this account", none⟩, none, false, none, some u⟩
      else if useBackupCode then
        match verifyBackupCode token u.backupCodes with
        | none => ⟨⟨401, false, "Invalid backup code", none⟩, none, false, none, some u⟩
        | some i =>
          totpIssueTokens { u with backupCodes := u.backupCodes.eraseIdx i } true now
      else
        match u.totpSecret with
        | none =>
          -- unreachable under the schema invariant `totpEnabled → secret`
          ⟨⟨401, false, "Invalid TOTP token", none⟩, none, false, none, some u⟩
        | some secret =>
          if verifyTOTPToken token secret step 1 then totpIssueTokens u false now
          else ⟨⟨401, false, "Invalid TOTP token", none⟩, none, false, none, some u⟩

/-! ## `Session` model and the session-checking `authenticate` middleware -/

structure SessionRec where
  userId : Nat
  sessionToken : Str
  refreshTokenHash : BHash RToken
  isActive : Bool
  lastActivity : Nat
  expiresAt : Nat
deriving DecidableEq, Repr

/-- `session.updateActivity()`. -/
def updateActivity (s : SessionRec) (now : Nat) : SessionRec :=
  { s with lastActivity := now }

/-- Outcome of the `authenticate` middleware: `resp = none` means `next()`
was reached; `session` is the stored session after the call. -/
structure AuthOut where
  resp : Option Resp
  session : Option SessionRec
  reqUserId : Option Nat
deriving DecidableEq, Repr

/-- `authenticate(req)` (the snapshot with the idle-session check):
verifies the access JWT, requires the session-token cookie, loads the
active session, enforces the 15-minute idle window — deactivating the
session and replying `SESSION_IDLE_TIMEOUT` when exceeded — and otherwise
advances `lastActivity` and passes control on. -/
def authenticate (accessTok : Option AToken) (sessionTok : Option Str)
    (findSession : Str → Option SessionRec) (now : Nat) : AuthOut :=
  match accessTok with
  | none => ⟨some ⟨401, false, UNAUTHORIZED_MSG, none⟩, none, none⟩
  | some t =>
    if !decide (now < t.exp) then
      ⟨some ⟨401, false, "Token expired", some "TOKEN_EXPIRED"⟩, none, none⟩
    else
      match sessionTok with
      | none =>
        ⟨some ⟨401, false, "Session token missing. Please log in again.", none⟩, none, none⟩
      | some st =>
        match findSession st with
        | none =>
          ⟨some ⟨401, false, "Invalid or expired session. Please log in again.", none⟩,
            none, none⟩
        | some s =>
          if !s.isActive then
            -- filtered out by the `isActive: true` query condition
            ⟨some ⟨401, false, "Invalid or expired session. Please log in again.", none⟩,
              some s, none⟩
          else if sessionIdleTimeout < now - s.lastActivity then
            let s2 := { s with isActive := false }
            ⟨some ⟨401, false, "Session expired due to inactivity. Please log in again.",
              some "SESSION_IDLE_TIMEOUT"⟩, some s2, none⟩
          else
            ⟨none, some (updateActivity s now), some t.id⟩

end AuthCore

namespace AuthCore

/-! # Theorems -/

theorem splitColon_ne_nil (s : Str) : splitColon s ≠ [] := by
  cases s with
  | nil => simp [splitColon]
  | cons c rest =>
    simp only [splitColon]
    cases h : splitColon rest with
    | nil => simp
    | cons p ps =>
      by_cases hc : c = ':' <;> simp [hc]

theorem splitColon_noColon (s : Str) (h : ':' ∉ s) : splitColon s = [s] := by
  induction s with
  | nil => rfl
  | cons c rest ih =>
    have hc : c ≠ ':' := fun he => h (he ▸ List.mem_cons_self c rest)
    have hc' : ¬ (':' : Char) = c := fun he => hc he.symm
    have hr : ':' ∉ rest := fun hm => h (List.mem_cons_of_mem c hm)
    simp [splitColon, ih hr, hc, hc']

theorem splitColon_append (a b : Str) (ha : ':' ∉ a) :
    splitColon (a ++ ':' :: b) = a :: splitColon b := by
  induction a with
  | nil =>
    simp only [List.nil_append, splitColon]
    cases h : splitColon b with
    | nil => exact absurd h (splitColon_ne_nil b)
    | cons p ps => simp
  | cons c rest ih =>
    have hc : c ≠ ':' := fun he => ha (he ▸ List.mem_cons_self c rest)
    have hc' : ¬ (':' : Char) = c := fun he => hc he.symm
    have hr : ':' ∉ rest := fun hm => ha (List.mem_cons_of_mem c hm)
    have hrec := ih hr
    simp only [List.cons_append, splitColon, List.append_eq]
    rw [hrec]
    simp [hc, hc']

theorem splitColon_length (s : Str) :
    (splitColon s).length = s.count ':' + 1 := by
  induction s with
  | nil => rfl
  | cons c rest ih =>
    simp only [splitColon]
    cases h : splitColon rest with
    | nil => exact absurd h (splitColon_ne_nil rest)
    | cons p ps =>
      rw [h] at ih
      by_cases hc : c = ':'
      · subst hc
        simp_all [List.count_cons]
      · simp_all [List.count_cons, hc, fun he : (':' : Char) = c => hc he.symm]

theorem fromHex1_toHex1 (d : Nat) (hd : d < 16) : fromHex1 (toHex1 d) = some d := by
  interval_cases d <;> rfl

theorem toHex1_ne_colon (n : Nat) : toHex1 n ≠ ':' := by
  unfold toHex1
  have h : n % 16 < 16 := Nat.mod_lt _ (by norm_num)
  generalize n % 16 = m at h ⊢
  interval_cases m <;> decide

theorem colon_not_mem_hexBytes (bs : List Nat) : ':' ∉ hexBytes bs := by
  induction bs with
  | nil => simp [hexBytes]
  | cons b bs ih =>
    simp only [hexBytes, toHex2, List.cons_append, List.nil_append, List.mem_cons]
    push_neg
    exact ⟨(toHex1_ne_colon _).symm, (toHex1_ne_colon _).symm, ih⟩

theorem parseHexBytes_hexBytes (bs : List Nat) (h : ∀ b ∈ bs, b < 256) :
    parseHexBytes (hexBytes bs) = some bs := by
  induction bs with
  | nil => rfl
  | cons b bs ih =>
    have hb : b < 256 := h b (List.mem_cons_self b bs)
    have hhi : b / 16 < 16 := by omega
    have hlo : b % 16 < 16 := by omega
    have ihr := ih (fun x hx => h x (List.mem_cons_of_mem b hx))
    simp only [hexBytes, toHex2, List.cons_append, List.nil_append, parseHexBytes,
      parseHexPair, fromHex1_toHex1 _ hhi, fromHex1_toHex1 _ hlo,
      Option.bind_eq_bind, Option.some_bind]
    simp only [List.append_eq, List.nil_append, ihr, Option.pure_def, Option.some_bind,
      Option.some.injEq, List.cons.injEq]
    exact ⟨by omega, trivial⟩

theorem hexBytes_injOn (a b : List Nat) (ha : ∀ x ∈ a, x < 256) (hb : ∀ x ∈ b, x < 256)
    (h : hexBytes a = hexBytes b) : a = b := by
  have h1 := parseHexBytes_hexBytes a ha
  have h2 := parseHexBytes_hexBytes b hb
  rw [h] at h1
  rw [h1] at h2
  exact (Option.some.injEq _ _ ▸ h2)

theorem char_toNat_lt (c : Char) : c.toNat < 1114112 := by
  have h := c.valid
  rcases h with h | ⟨_, h2⟩
  · exact Nat.lt_trans h (by norm_num)
  · exact h2

theorem colon_not_mem_encodeStr (s : Str) : ':' ∉ encodeStr s := by
  induction s with
  | nil => simp [encodeStr]
  | cons c cs ih =>
    simp only [encodeStr, toHex6, List.cons_append, List.nil_append, List.mem_cons]
    push_neg
    refine ⟨?_, ?_, ?_, ?_, ?_, ?_, ih⟩ <;> exact (toHex1_ne_colon _).symm

theorem decodeStr_encodeStr (s : Str) : decodeStr (encodeStr s) = some s := by
  induction s with
  | nil => rfl
  | cons c cs ih =>
    have hc : c.toNat < 16777216 := Nat.lt_trans (char_toNat_lt c) (by norm_num)
    have d1 : c.toNat / 1048576 % 16 < 16 := Nat.mod_lt _ (by norm_num)
    have d2 : c.toNat / 65536 % 16 < 16 := Nat.mod_lt _ (by norm_num)
    have d3 : c.toNat / 4096 % 16 < 16 := Nat.mod_lt _ (by norm_num)
    have d4 : c.toNat / 256 % 16 < 16 := Nat.mod_lt _ (by norm_num)
    have d5 : c.toNat / 16 % 16 < 16 := Nat.mod_lt _ (by norm_num)
    have d6 : c.toNat % 16 < 16 := Nat.mod_lt _ (by norm_num)
    have hsum : c.toNat / 1048576 % 16 * 1048576 + c.toNat / 65536 % 16 * 65536 +
        c.toNat / 4096 % 16 * 4096 + c.toNat / 256 % 16 * 256 +
        c.toNat / 16 % 16 * 16 + c.toNat % 16 = c.toNat := by omega
    simp only [encodeStr, toHex6, List.cons_append, List.nil_append, decodeStr,
      parseHex6, fromHex1_toHex1 _ d1, fromHex1_toHex1 _ d2, fromHex1_toHex1 _ d3,
      fromHex1_toHex1 _ d4, fromHex1_toHex1 _ d5, fromHex1_toHex1 _ d6,
      Option.bind_eq_bind, Option.some_bind, hsum]
    simp only [List.append_eq, List.nil_append, ih, Option.pure_def, Option.some_bind,
      Char.ofNat_toNat]

theorem colon_not_mem_toHex6 (n : Nat) : ':' ∉ toHex6 n := by
  simp only [toHex6, List.mem_cons, List.not_mem_nil, or_false]
  push_neg
  refine ⟨?_, ?_, ?_, ?_, ?_, ?_⟩ <;> exact (toHex1_ne_colon _).symm

theorem colon_not_mem_computeTag (key ivHex ct : Str) : ':' ∉ computeTag key ivHex ct :=
  colon_not_mem_toHex6 _

theorem splitColon_envelope (saltHex ivHex ct tag : Str)
    (h1 : ':' ∉ saltHex) (h2 : ':' ∉ ivHex) (h3 : ':' ∉ ct) (h4 : ':' ∉ tag) :
    splitColon (saltHex ++ ':' :: (ivHex ++ ':' :: (ct ++ ':' :: tag))) =
      [saltHex, ivHex, ct, tag] := by
  rw [splitColon_append _ _ h1, splitColon_append _ _ h2, splitColon_append _ _ h3,
    splitColon_noColon _ h4]

theorem envelope_ne_nil (saltHex ivHex ct tag : Str) :
    saltHex ++ ':' :: (ivHex ++ ':' :: (ct ++ ':' :: tag)) ≠ [] := by
  intro h
  have : (saltHex ++ ':' :: (ivHex ++ ':' :: (ct ++ ':' :: tag))).length = 0 := by
    rw [h]; rfl
  simp [List.length_append] at this

/-! ## Claim C10 — `isEncrypted` -/

/-- C10, counterexample: the claim says `isEncrypted` requires exactly 4
*non-empty* segments and that a string with an empty segment such as `":::"`
yields `false`; on the code, `":::"` splits into four empty segments and
`isEncrypted` returns `true`. -/
theorem isEncrypted_true_on_triple_colon :
    isEncrypted [':', ':', ':'] = true ∧
      ∀ seg ∈ splitColon [':', ':', ':'], seg = [] := by
  decide

/-- C10 (amended): `isEncrypted v` returns `true` iff `v` is a non-empty
string containing exactly three `':'` characters — i.e. it splits into
exactly 4 segments, empty segments included; no non-emptiness of the
segments is required. -/
theorem isEncrypted_iff_three_colons (v : Str) :
    isEncrypted v = true ↔ v ≠ [] ∧ v.count ':' = 3 := by
  unfold isEncrypted
  rw [Bool.and_eq_true, beq_iff_eq, splitColon_length]
  constructor
  · rintro ⟨h1, h2⟩
    refine ⟨?_, by omega⟩
    simpa using h1
  · rintro ⟨h1, h2⟩
    exact ⟨by simpa using h1, by omega⟩

/-! ## Claim C4 — field encryption round-trip and envelope freshness -/

theorem encryptField_nonempty (mk : Str) (salt iv : List Nat) (s : Str) (hs : s ≠ []) :
    encryptField (some mk) salt iv s =
      .ok (some (hexBytes salt ++ ':' :: (hexBytes iv ++ ':' ::
        (encodeStr s ++ ':' ::
          computeTag (deriveKey mk salt) (hexBytes iv) (encodeStr s))))) := by
  simp [encryptField, hs]

theorem fieldRoundtrip_ok (mk : Str) (salt iv : List Nat) (s : Str)
    (hs : s ≠ []) (hsalt : ∀ b ∈ salt, b < 256) :
    fieldRoundtrip (some mk) salt iv s = .ok (some s) := by
  unfold fieldRoundtrip
  rw [encryptField_nonempty mk salt iv s hs]
  simp only [decryptField, if_neg (envelope_ne_nil _ _ _ _)]
  rw [splitColon_envelope _ _ _ _ (colon_not_mem_hexBytes salt)
    (colon_not_mem_hexBytes iv) (colon_not_mem_encodeStr s)
    (colon_not_mem_computeTag _ _ _)]
  simp only [parseHexBytes_hexBytes salt hsalt, decodeStr_encodeStr, if_pos]

theorem encryptField_fresh (mk : Str) (salt1 iv1 salt2 iv2 : List Nat) (s : Str)
    (hs : s ≠ []) (h1 : ∀ b ∈ salt1, b < 256) (h2 : ∀ b ∈ salt2, b < 256)
    (hne : salt1 ≠ salt2) :
    encryptField (some mk) salt1 iv1 s ≠ encryptField (some mk) salt2 iv2 s := by
  rw [encryptField_nonempty mk salt1 iv1 s hs, encryptField_nonempty mk salt2 iv2 s hs]
  intro h
  apply hne
  have henv := congrArg (fun x => x) h
  have henv2 : (hexBytes salt1 ++ ':' :: (hexBytes iv1 ++ ':' ::
      (encodeStr s ++ ':' :: computeTag (deriveKey mk salt1) (hexBytes iv1) (encodeStr s)))) =
      (hexBytes salt2 ++ ':' :: (hexBytes iv2 ++ ':' ::
      (encodeStr s ++ ':' :: computeTag (deriveKey mk salt2) (hexBytes iv2) (encodeStr s)))) := by
    have := h
    simp only [Except.ok.injEq, Option.some.injEq] at this
    exact this
  have hsplit := congrArg splitColon henv2
  rw [splitColon_envelope _ _ _ _ (colon_not_mem_hexBytes salt1)
      (colon_not_mem_hexBytes iv1) (colon_not_mem_encodeStr s)
      (colon_not_mem_computeTag _ _ _),
    splitColon_envelope _ _ _ _ (colon_not_mem_hexBytes salt2)
      (colon_not_mem_hexBytes iv2) (colon_not_mem_encodeStr s)
      (colon_not_mem_computeTag _ _ _)] at hsplit
  have hhead : hexBytes salt1 = hexBytes salt2 := by
    injection hsplit
  exact hexBytes_injOn _ _ h1 h2 hhead

/-- C4, counterexample: the claim quantifies over *every* plaintext, but the
empty string is falsy in JS, so `encryptField("")` returns `null` and the
round trip yields `null`, not `""`. -/
theorem fieldRoundtrip_fails_on_empty :
    fieldRoundtrip (some ['k']) [1] [2] [] = .ok none ∧
      fieldRoundtrip (some ['k']) [1] [2] [] ≠ .ok (some ([] : Str)) := by
  refine ⟨rfl, fun h => ?_⟩
  have h3 : (Except.ok (none : Option Str) : Except Unit (Option Str)) = .ok (some []) := h
  simp at h3

/-- C4 (amended): with the master key present, for every *non-empty*
plaintext `s` the decryption of the encryption returns `s`, and two calls on
the same `s` whose random salts differ produce different envelopes (fresh
salt/iv per call); for the empty string `encryptField` returns `null`. -/
theorem encryptField_roundtrip_and_freshness (mk : Str) (salt iv salt1 iv1 salt2 iv2 : List Nat)
    (s : Str) (hs : s ≠ []) (hsalt : ∀ b ∈ salt, b < 256)
    (h1 : ∀ b ∈ salt1, b < 256) (h2 : ∀ b ∈ salt2, b < 256) (hne : salt1 ≠ salt2) :
    fieldRoundtrip (some mk) salt iv s = .ok (some s) ∧
      encryptField (some mk) salt1 iv1 s ≠ encryptField (some mk) salt2 iv2 s :=
  ⟨fieldRoundtrip_ok mk salt iv s hs hsalt,
   encryptField_fresh mk salt1 iv1 salt2 iv2 s hs h1 h2 hne⟩

/-- C4, witness: the amended round-trip/freshness theorem applied at the
plaintext `"ab"`, salts `[1]`/`[3]` and iv `[2]`. -/
theorem encryptField_roundtrip_and_freshness_witness :
    fieldRoundtrip (some ['k']) [1] [2] ['a', 'b'] = .ok (some ['a', 'b']) ∧
      encryptField (some ['k']) [1] [2] ['a', 'b'] ≠
        encryptField (some ['k']) [3] [2] ['a', 'b'] :=
  encryptField_roundtrip_and_freshness ['k'] [1] [2] [1] [2] [3] [2] ['a', 'b']
    (by decide) (by decide) (by decide) (by decide) (by decide)

/-! ## Claim C3 — enumeration resistance of `login` -/

/-- C3: a login for an email matching no record and a login for an existing
verified, unlocked, unsuspended record with a wrong password return the same
HTTP status and the same message — 401 and the generic invalid-credentials
text — so the response does not reveal whether the identity exists. -/
theorem login_enumeration_resistant (u : UserRec) (p w pw : Str) (t t' : Nat)
    (hver : u.isEmailVerified = true) (hsus : u.isSuspended = false)
    (hlock : isAccountLocked u t' = false)
    (hpw : u.password = some (hashPassword p)) (hw : w ≠ p) :
    (login none pw t).resp.status = (login (some u) w t').resp.status ∧
      (login none pw t).resp.message = (login (some u) w t').resp.message ∧
      (login none pw t).resp.status = 401 ∧
      (login none pw t).resp.message = INVALID_CREDENTIALS := by
  have hcmp : comparePassword w (hashPassword p) = false := by
    simp only [comparePassword, hashPassword, decide_eq_false_iff_not]
    exact fun h => hw h.symm
  simp [login, hver, hsus, hlock, hpw, hcmp]

/-- C3, witness: the enumeration-resistance theorem applied to a concrete
verified user with password `"p"`, wrong password `"w"`. -/
theorem login_enumeration_resistant_witness :
    (login none ['x'] 0).resp.status = (login (some sampleUser) ['w'] 0).resp.status ∧
      (login none ['x'] 0).resp.message = (login (some sampleUser) ['w'] 0).resp.message ∧
      (login none ['x'] 0).resp.status = 401 ∧
      (login none ['x'] 0).resp.message = INVALID_CREDENTIALS :=
  login_enumeration_resistant sampleUser ['p'] ['w'] ['x'] 0 0
    (by decide) (by decide) (by decide) (by decide) (by decide)

/-! ## Claim C5 — session idle timeout in `authenticate` -/

/-- C5: on an authenticated request with a valid access token, a session
idle for `idleTimeout + 1s` is rejected with the distinguishable
`SESSION_IDLE_TIMEOUT` code and stored deactivated, while a session idle for
`idleTimeout - 1s` passes the check and has its `lastActivity` advanced to
`now`. -/
theorem authenticate_idle_timeout (tok : AToken) (st : Str) (s1 s2 : SessionRec) (now : Nat)
    (hexp : now < tok.exp) (hnow : sessionIdleTimeout + 1000 ≤ now)
    (hact1 : s1.isActive = true)
    (hlast1 : s1.lastActivity = now - (sessionIdleTimeout + 1000))
    (hact2 : s2.isActive = true)
    (hlast2 : s2.lastActivity = now - (sessionIdleTimeout - 1000)) :
    (authenticate (some tok) (some st) (fun x => if x = st then some s1 else none) now =
      ⟨some ⟨401, false, "Session expired due to inactivity. Please log in again.",
        some "SESSION_IDLE_TIMEOUT"⟩, some { s1 with isActive := false }, none⟩) ∧
    (authenticate (some tok) (some st) (fun x => if x = st then some s2 else none) now =
      ⟨none, some { s2 with lastActivity := now }, some tok.id⟩) := by
  have h1 : sessionIdleTimeout < now - s1.lastActivity := by
    rw [hlast1]
    omega
  have h2 : ¬ sessionIdleTimeout < now - s2.lastActivity := by
    rw [hlast2]
    unfold sessionIdleTimeout at *
    omega
  constructor
  · simp [authenticate, hexp, hact1, h1]
  · simp [authenticate, hexp, hact2, h2, updateActivity]

/-- C5, witness: the idle-timeout theorem applied at `now = 10^6` ms to an
active session stale by 901 s (rejected and deactivated) and one stale by
899 s (accepted, activity advanced). -/
theorem authenticate_idle_timeout_witness :
    (authenticate (some ⟨1, ['e'], .user, 0, 2000000⟩) (some ['s'])
        (fun x => if x = ['s'] then some ⟨1, ['s'], hashPassword ⟨1, 0, 0⟩, true, 99000, 0⟩
          else none) 1000000 =
      ⟨some ⟨401, false, "Session expired due to inactivity. Please log in again.",
        some "SESSION_IDLE_TIMEOUT"⟩,
       some ⟨1, ['s'], hashPassword ⟨1, 0, 0⟩, false, 99000, 0⟩, none⟩) ∧
    (authenticate (some ⟨1, ['e'], .user, 0, 2000000⟩) (some ['s'])
        (fun x => if x = ['s'] then some ⟨1, ['s'], hashPassword ⟨1, 0, 0⟩, true, 101000, 0⟩
          else none) 1000000 =
      ⟨none, some ⟨1, ['s'], hashPassword ⟨1, 0, 0⟩, true, 1000000, 0⟩, some 1⟩) :=
  authenticate_idle_timeout ⟨1, ['e'], .user, 0, 2000000⟩ ['s']
    ⟨1, ['s'], hashPassword ⟨1, 0, 0⟩, true, 99000, 0⟩
    ⟨1, ['s'], hashPassword ⟨1, 0, 0⟩, true, 101000, 0⟩ 1000000
    (by decide) (by decide) (by decide) (by decide) (by decide) (by decide)

/-! ## Claim C2 — account lockout after five consecutive failures -/

theorem isAccountLocked_none (u : UserRec) (t : Nat) (h : u.accountLockedUntil = none) :
    isAccountLocked u t = false := by
  simp [isAccountLocked, h]

theorem comparePassword_hashPassword_self {α : Type} [DecidableEq α] (p : α) :
    comparePassword p (hashPassword p) = true := by
  simp [comparePassword, hashPassword]

theorem comparePassword_hashPassword_ne {α : Type} [DecidableEq α] (w p : α) (h : w ≠ p) :
    comparePassword w (hashPassword p) = false := by
  simp only [comparePassword, hashPassword, decide_eq_false_iff_not]
  exact fun he => h he.symm

/-- A failed password check returns the generic 401 and stores the
incremented counter record. -/
theorem login_wrong_password (u : UserRec) (w p : Str) (t : Nat)
    (hsus : u.isSuspended = false) (hver : u.isEmailVerified = true)
    (hlock : isAccountLocked u t = false)
    (hpw : u.password = some (hashPassword p)) (hw : w ≠ p) :
    login (some u) w t =
      ⟨⟨401, false, INVALID_CREDENTIALS, none⟩, false, none,
        some (incrementLoginAttempts u t)⟩ := by
  simp [login, hsus, hver, hlock, hpw, comparePassword_hashPassword_ne w p hw]

/-- A login attempt against a currently locked record is rejected as locked
without touching the record. -/
theorem login_locked (u : UserRec) (pw : Str) (t : Nat)
    (hsus : u.isSuspended = false) (hlock : isAccountLocked u t = true) :
    login (some u) pw t = ⟨⟨401, false, ACCOUNT_LOCKED, none⟩, false, none, some u⟩ := by
  simp [login, hsus, hlock]

/-- A correct-password login on an unlocked, verified, unsuspended record
without TOTP succeeds, issues a token pair, and stores the record with the
counter and lock cleared. -/
theorem login_correct_success (u : UserRec) (p : Str) (t : Nat)
    (hsus : u.isSuspended = false) (hver : u.isEmailVerified = true)
    (hlock : isAccountLocked u t = false)
    (hpw : u.password = some (hashPassword p)) (htotp : u.totpEnabled = false) :
    login (some u) p t =
      ⟨⟨200, true, LOGIN_SUCCESS, none⟩, false,
        some (generateTokenPair (resetLoginAttempts u) t),
        some { u with failedLoginAttempts := 0, accountLockedUntil := none,
                      refreshTokenHash :=
                        some (hashPassword (generateTokenPair (resetLoginAttempts u) t).2),
                      refreshTokenExpires := some (t + refreshTokenExpiryMs),
                      lastLogin := some t }⟩ := by
  simp [login, hsus, hver, hlock, hpw, comparePassword_hashPassword_self,
    resetLoginAttempts, htotp]

/-- C2: starting from a clean verified record with a correct stored password
hash, five consecutive wrong-password logins each return the generic 401 and
increment the counter; the fifth sets `accountLockedUntil = t5 + lockDuration`;
a correct-password attempt inside the lock window is rejected as locked; and a
correct-password attempt at or after `t5 + lockDuration` succeeds with a fresh
token pair and stores `failedLoginAttempts = 0`, `accountLockedUntil = null`. -/
theorem login_lockout_cycle (u0 : UserRec) (p w : Str) (t1 t2 t3 t4 t5 t6 t7 : Nat)
    (hpw : u0.password = some (hashPassword p)) (hw : w ≠ p)
    (hsus : u0.isSuspended = false) (hver : u0.isEmailVerified = true)
    (htotp : u0.totpEnabled = false)
    (h0 : u0.failedLoginAttempts = 0) (hl0 : u0.accountLockedUntil = none)
    (ht6 : t6 < t5 + lockDuration) (ht7 : t5 + lockDuration ≤ t7) :
    login (some u0) w t1 =
      ⟨⟨401, false, INVALID_CREDENTIALS, none⟩, false, none,
        some { u0 with failedLoginAttempts := 1 }⟩ ∧
    login (some { u0 with failedLoginAttempts := 1 }) w t2 =
      ⟨⟨401, false, INVALID_CREDENTIALS, none⟩, false, none,
        some { u0 with failedLoginAttempts := 2 }⟩ ∧
    login (some { u0 with failedLoginAttempts := 2 }) w t3 =
      ⟨⟨401, false, INVALID_CREDENTIALS, none⟩, false, none,
        some { u0 with failedLoginAttempts := 3 }⟩ ∧
    login (some { u0 with failedLoginAttempts := 3 }) w t4 =
      ⟨⟨401, false, INVALID_CREDENTIALS, none⟩, false, none,
        some { u0 with failedLoginAttempts := 4 }⟩ ∧
    login (some { u0 with failedLoginAttempts := 4 }) w t5 =
      ⟨⟨401, false, INVALID_CREDENTIALS, none⟩, false, none,
        some { u0 with failedLoginAttempts := 5,
                       accountLockedUntil := some (t5 + lockDuration) }⟩ ∧
    login (some { u0 with failedLoginAttempts := 5,
                          accountLockedUntil := some (t5 + lockDuration) }) p t6 =
      ⟨⟨401, false, ACCOUNT_LOCKED, none⟩, false, none,
        some { u0 with failedLoginAttempts := 5,
                       accountLockedUntil := some (t5 + lockDuration) }⟩ ∧
    (login (some { u0 with failedLoginAttempts := 5,
                           accountLockedUntil := some (t5 + lockDuration) }) p t7).resp.status
      = 200 ∧
    (login (some { u0 with failedLoginAttempts := 5,
                           accountLockedUntil := some (t5 + lockDuration) }) p t7).resp.message
      = LOGIN_SUCCESS ∧
    (login (some { u0 with failedLoginAttempts := 5,
                           accountLockedUntil := some (t5 + lockDuration) }) p t7).tokens.isSome
      = true ∧
    ∃ uf, (login (some { u0 with failedLoginAttempts := 5,
                                 accountLockedUntil := some (t5 + lockDuration) }) p t7).user
        = some uf ∧
      uf.failedLoginAttempts = 0 ∧ uf.accountLockedUntil = none := by
  have hmax : maxFailedAttempts = 5 := rfl
  have hstep : ∀ (k : Nat) (t : Nat), k + 1 < 5 →
      incrementLoginAttempts { u0 with failedLoginAttempts := k } t =
        { u0 with failedLoginAttempts := k + 1 } := by
    intro k t hk
    simp [incrementLoginAttempts, hl0, hmax]
    omega
  have hstep5 : ∀ t : Nat,
      incrementLoginAttempts { u0 with failedLoginAttempts := 4 } t =
        { u0 with failedLoginAttempts := 5, accountLockedUntil := some (t + lockDuration) } := by
    intro t
    simp [incrementLoginAttempts, hl0, hmax]
  have hfail : ∀ (k : Nat) (t : Nat), k + 1 < 5 →
      login (some { u0 with failedLoginAttempts := k }) w t =
        ⟨⟨401, false, INVALID_CREDENTIALS, none⟩, false, none,
          some { u0 with failedLoginAttempts := k + 1 }⟩ := by
    intro k t hk
    rw [login_wrong_password _ w p t (by simpa using hsus) (by simpa using hver)
      (isAccountLocked_none _ t (by simpa using hl0)) (by simpa using hpw) hw]
    rw [hstep k t hk]
  have hfail5 : login (some { u0 with failedLoginAttempts := 4 }) w t5 =
      ⟨⟨401, false, INVALID_CREDENTIALS, none⟩, false, none,
        some { u0 with failedLoginAttempts := 5,
                       accountLockedUntil := some (t5 + lockDuration) }⟩ := by
    rw [login_wrong_password _ w p t5 (by simpa using hsus) (by simpa using hver)
      (isAccountLocked_none _ t5 (by simpa using hl0)) (by simpa using hpw) hw]
    rw [hstep5 t5]
  have hlocked6 :
      isAccountLocked
        { u0 with failedLoginAttempts := 5,
                  accountLockedUntil := some (t5 + lockDuration) } t6 = true := by
    simp [isAccountLocked, ht6]
  have hunlocked7 :
      isAccountLocked
        { u0 with failedLoginAttempts := 5,
                  accountLockedUntil := some (t5 + lockDuration) } t7 = false := by
    simp [isAccountLocked]
    omega
  have hstep1 := hfail 0 t1 (by omega)
  rw [show { u0 with failedLoginAttempts := 0 } = u0 from by rw [← h0]] at hstep1
  have hsucc := login_correct_success
    { u0 with failedLoginAttempts := 5, accountLockedUntil := some (t5 + lockDuration) } p t7
    (by simpa using hsus) (by simpa using hver) hunlocked7 (by simpa using hpw)
    (by simpa using htotp)
  refine ⟨hstep1, hfail 1 t2 (by omega), hfail 2 t3 (by omega), hfail 3 t4 (by omega),
    hfail5, login_locked _ p t6 (by simpa using hsus) hlocked6, ?_, ?_, ?_, ?_⟩
  · rw [hsucc]
  · rw [hsucc]
  · rw [hsucc]
    rfl
  · exact ⟨_, by rw [hsucc], rfl, rfl⟩

/-- C2, witness: the lockout cycle applied to the concrete `sampleUser`
(password `"p"`, wrong password `"w"`), failures at `t = 1..5` ms, a locked
correct-password attempt at `t6 = 10` ms and an unlocked one at
`t7 = 5 + lockDuration` ms. -/
theorem login_lockout_cycle_witness :
    login (some sampleUser) ['w'] 1 =
      ⟨⟨401, false, INVALID_CREDENTIALS, none⟩, false, none,
        some { sampleUser with failedLoginAttempts := 1 }⟩ ∧
    login (some { sampleUser with failedLoginAttempts := 1 }) ['w'] 2 =
      ⟨⟨401, false, INVALID_CREDENTIALS, none⟩, false, none,
        some { sampleUser with failedLoginAttempts := 2 }⟩ ∧
    login (some { sampleUser with failedLoginAttempts := 2 }) ['w'] 3 =
      ⟨⟨401, false, INVALID_CREDENTIALS, none⟩, false, none,
        some { sampleUser with failedLoginAttempts := 3 }⟩ ∧
    login (some { sampleUser with failedLoginAttempts := 3 }) ['w'] 4 =
      ⟨⟨401, false, INVALID_CREDENTIALS, none⟩, false, none,
        some { sampleUser with failedLoginAttempts := 4 }⟩ ∧
    login (some { sampleUser with failedLoginAttempts := 4 }) ['w'] 5 =
      ⟨⟨401, false, INVALID_CREDENTIALS, none⟩, false, none,
        some { sampleUser with failedLoginAttempts := 5,
                               accountLockedUntil := some (5 + lockDuration) }⟩ ∧
    login (some { sampleUser with failedLoginAttempts := 5,
                                  accountLockedUntil := some (5 + lockDuration) }) ['p'] 10 =
      ⟨⟨401, false, ACCOUNT_LOCKED, none⟩, false, none,
        some { sampleUser with failedLoginAttempts := 5,
                               accountLockedUntil := some (5 + lockDuration) }⟩ ∧
    (login (some { sampleUser with failedLoginAttempts := 5,
                                   accountLockedUntil := some (5 + lockDuration) })
        ['p'] (5 + lockDuration)).resp.status
      = 200 ∧
    (login (some { sampleUser with failedLoginAttempts := 5,
                                   accountLockedUntil := some (5 + lockDuration) })
        ['p'] (5 + lockDuration)).resp.message
      = LOGIN_SUCCESS ∧
    (login (some { sampleUser with failedLoginAttempts := 5,
                                   accountLockedUntil := some (5 + lockDuration) })
        ['p'] (5 + lockDuration)).tokens.isSome
      = true ∧
    ∃ uf, (login (some { sampleUser with failedLoginAttempts := 5,
                                         accountLockedUntil := some (5 + lockDuration) })
        ['p'] (5 + lockDuration)).user
        = some uf ∧
      uf.failedLoginAttempts = 0 ∧ uf.accountLockedUntil = none :=
  login_lockout_cycle sampleUser ['p'] ['w'] 1 2 3 4 5 10 (5 + lockDuration)
    (by decide) (by decide) (by decide) (by decide) (by decide) (by decide) (by decide)
    (by decide) (by decide)

/-! ## Claim C1 — refresh-token rotation -/

/-- C1: a valid refresh call rotates both tokens — it issues a fresh
access/refresh pair and replaces the stored hash with the hash of the new
refresh token — after which presenting the superseded refresh token fails
the hash-match check with the invalid-token 401, while presenting the new
refresh token succeeds. -/
theorem refreshAccessToken_rotates (u : UserRec) (told : RToken) (e t1 t2 : Nat)
    (hid : told.id = u.id)
    (hexp1 : t1 < told.exp) (hexp2 : t2 < told.exp)
    (hhash : u.refreshTokenHash = some (hashPassword told))
    (hre : u.refreshTokenExpires = some e) (he : ¬ e < t1)
    (hfresh : told ≠ ⟨u.id, t1, t1 + refreshTokenExpiryMs⟩)
    (ht2 : t2 < t1 + refreshTokenExpiryMs) :
    refreshAccessToken (singleUserDb u) (some told) t1 =
      ⟨⟨200, true, "Token refreshed successfully", none⟩,
        some (⟨u.id, u.email, u.role, t1, t1 + accessTokenExpiryMs⟩,
              ⟨u.id, t1, t1 + refreshTokenExpiryMs⟩),
        some { u with
            refreshTokenHash :=
              some (hashPassword (⟨u.id, t1, t1 + refreshTokenExpiryMs⟩ : RToken)),
            refreshTokenExpires := some (t1 + refreshTokenExpiryMs) }⟩ ∧
    refreshAccessToken
        (singleUserDb { u with
            refreshTokenHash :=
              some (hashPassword (⟨u.id, t1, t1 + refreshTokenExpiryMs⟩ : RToken)),
            refreshTokenExpires := some (t1 + refreshTokenExpiryMs) })
        (some told) t2 =
      ⟨⟨401, false, INVALID_TOKEN, none⟩, none,
        some { u with
            refreshTokenHash :=
              some (hashPassword (⟨u.id, t1, t1 + refreshTokenExpiryMs⟩ : RToken)),
            refreshTokenExpires := some (t1 + refreshTokenExpiryMs) }⟩ ∧
    (refreshAccessToken
        (singleUserDb { u with
            refreshTokenHash :=
              some (hashPassword (⟨u.id, t1, t1 + refreshTokenExpiryMs⟩ : RToken)),
            refreshTokenExpires := some (t1 + refreshTokenExpiryMs) })
        (some (⟨u.id, t1, t1 + refreshTokenExpiryMs⟩ : RToken)) t2).resp.status = 200 ∧
    (refreshAccessToken
        (singleUserDb { u with
            refreshTokenHash :=
              some (hashPassword (⟨u.id, t1, t1 + refreshTokenExpiryMs⟩ : RToken)),
            refreshTokenExpires := some (t1 + refreshTokenExpiryMs) })
        (some (⟨u.id, t1, t1 + refreshTokenExpiryMs⟩ : RToken)) t2).tokens.isSome = true := by
  have hne : comparePassword told
      (hashPassword (⟨u.id, t1, t1 + refreshTokenExpiryMs⟩ : RToken)) = false :=
    comparePassword_hashPassword_ne told _ hfresh
  have hnotpast : ¬ t1 + refreshTokenExpiryMs < t2 := by omega
  refine ⟨?_, ?_, ?_, ?_⟩
  · simp [refreshAccessToken, verifyRefreshToken, hexp1, singleUserDb, hid, hhash, hre, he,
      comparePassword_hashPassword_self, generateTokenPair]
  · simp [refreshAccessToken, verifyRefreshToken, hexp2, singleUserDb, hid, hne, hnotpast]
  · simp [refreshAccessToken, verifyRefreshToken, ht2, singleUserDb,
      comparePassword_hashPassword_self, hnotpast, generateTokenPair]
  · simp [refreshAccessToken, verifyRefreshToken, ht2, singleUserDb,
      comparePassword_hashPassword_self, hnotpast, generateTokenPair]

/-- C1, witness: rotation applied to `sampleUser` holding the hash of a
refresh token issued at 0 with expiry 1000, rotated at `t1 = 10` and probed
at `t2 = 20`. -/
theorem refreshAccessToken_rotates_witness :
    refreshAccessToken
        (singleUserDb { sampleUser with
            refreshTokenHash := some (hashPassword (⟨1, 0, 1000⟩ : RToken)),
            refreshTokenExpires := some 500 })
        (some (⟨1, 0, 1000⟩ : RToken)) 10 =
      ⟨⟨200, true, "Token refreshed successfully", none⟩,
        some (⟨1, ['a'], Role.user, 10, 10 + accessTokenExpiryMs⟩,
              ⟨1, 10, 10 + refreshTokenExpiryMs⟩),
        some { sampleUser with
            refreshTokenHash :=
              some (hashPassword (⟨1, 10, 10 + refreshTokenExpiryMs⟩ : RToken)),
            refreshTokenExpires := some (10 + refreshTokenExpiryMs) }⟩ ∧
    refreshAccessToken
        (singleUserDb { sampleUser with
            refreshTokenHash :=
              some (hashPassword (⟨1, 10, 10 + refreshTokenExpiryMs⟩ : RToken)),
            refreshTokenExpires := some (10 + refreshTokenExpiryMs) })
        (some (⟨1, 0, 1000⟩ : RToken)) 20 =
      ⟨⟨401, false, INVALID_TOKEN, none⟩, none,
        some { sampleUser with
            refreshTokenHash :=
              some (hashPassword (⟨1, 10, 10 + refreshTokenExpiryMs⟩ : RToken)),
            refreshTokenExpires := some (10 + refreshTokenExpiryMs) }⟩ ∧
    (refreshAccessToken
        (singleUserDb { sampleUser with
            refreshTokenHash :=
              some (hashPassword (⟨1, 10, 10 + refreshTokenExpiryMs⟩ : RToken)),
            refreshTokenExpires := some (10 + refreshTokenExpiryMs) })
        (some (⟨1, 10, 10 + refreshTokenExpiryMs⟩ : RToken)) 20).resp.status = 200 ∧
    (refreshAccessToken
        (singleUserDb { sampleUser with
            refreshTokenHash :=
              some (hashPassword (⟨1, 10, 10 + refreshTokenExpiryMs⟩ : RToken)),
            refreshTokenExpires := some (10 + refreshTokenExpiryMs) })
        (some (⟨1, 10, 10 + refreshTokenExpiryMs⟩ : RToken)) 20).tokens.isSome = true :=
  refreshAccessToken_rotates
    { sampleUser with
        refreshTokenHash := some (hashPassword (⟨1, 0, 1000⟩ : RToken)),
        refreshTokenExpires := some 500 }
    ⟨1, 0, 1000⟩ 500 10 20 (by decide) (by decide) (by decide) (by decide) (by decide)
    (by decide) (by decide) (by decide)

/-! ## Claim C6 — `verifyTOTPLogin` requires neither password nor account status -/

theorem comparePassword_eq_true_iff {α : Type} [DecidableEq α] (p : α) (h : BHash α) :
    comparePassword p h = true ↔ h = hashPassword p := by
  cases h with
  | mk d => simp [comparePassword, hashPassword]

theorem verifyBackupCode_eq_none (code : Str) (hs : List (BHash Str)) :
    verifyBackupCode code hs = none ↔ hashPassword code ∉ hs := by
  induction hs with
  | nil => simp [verifyBackupCode]
  | cons h rest ih =>
    simp only [verifyBackupCode]
    by_cases hc : comparePassword code h = true
    · rw [if_pos hc]
      rw [comparePassword_eq_true_iff] at hc
      simp [hc]
    · rw [if_neg hc]
      have hne : hashPassword code ≠ h := by
        intro he
        exact hc ((comparePassword_eq_true_iff code h).mpr he.symm)
      simp [List.mem_cons, ih, fun he : h = hashPassword code => hne he.symm]
      exact fun _ => hne

theorem verifyBackupCode_isSome_of_mem (code : Str) (hs : List (BHash Str))
    (h : hashPassword code ∈ hs) : (verifyBackupCode code hs).isSome = true := by
  cases h' : verifyBackupCode code hs with
  | none => exact absurd h ((verifyBackupCode_eq_none code hs).mp h')
  | some i => rfl

theorem verifyBackupCode_some_getElem (code : Str) (hs : List (BHash Str)) (i : Nat)
    (h : verifyBackupCode code hs = some i) : hs[i]? = some (hashPassword code) := by
  induction hs generalizing i with
  | nil => simp [verifyBackupCode] at h
  | cons x rest ih =>
    simp only [verifyBackupCode] at h
    by_cases hc : comparePassword code x = true
    · rw [if_pos hc] at h
      have h0 : i = 0 := by
        injection h with h'
        omega
      subst h0
      rw [comparePassword_eq_true_iff] at hc
      simp [hc]
    · rw [if_neg hc] at h
      rcases Option.map_eq_some'.mp h with ⟨j, hj, rfl⟩
      simpa using ih j hj

theorem not_mem_eraseIdx_of_nodup {α : Type} (l : List α) (i : Nat) (x : α)
    (hnd : l.Nodup) (hx : l[i]? = some x) : x ∉ l.eraseIdx i := by
  induction l generalizing i with
  | nil => simp at hx
  | cons h rest ih =>
    cases i with
    | zero =>
      have hhx : h = x := by simpa using hx
      subst hhx
      simpa [List.eraseIdx] using (List.nodup_cons.mp hnd).1
    | succ j =>
      have hxr : rest[j]? = some x := by simpa using hx
      have hnd2 := List.nodup_cons.mp hnd
      have hxmem : x ∈ rest := List.getElem?_mem hxr
      have hxh : x ≠ h := fun he => hnd2.1 (he ▸ hxmem)
      simp only [List.eraseIdx, List.mem_cons]
      push_neg
      exact ⟨hxh, ih j hnd2.2 hxr⟩

theorem totpCode_ne_nil (sec : Str) (step : Nat) : totpCode sec step ≠ [] := by
  simp [totpCode, toHex6]

theorem verifyTOTPToken_self (sec : Str) (step : Nat) :
    verifyTOTPToken (totpCode sec step) sec step 1 = true := by
  simp only [verifyTOTPToken, List.any_eq_true]
  refine ⟨1, by decide, ?_⟩
  simp

/-- C6: for a record with `totpEnabled = true`, `verifyTOTPLogin` issues a
full authenticated token pair and stores a fresh refresh-token hash given
only the email and a currently valid TOTP code (or a still-stored backup
code).  The statement quantifies over arbitrary `password`,
`accountLockedUntil`, `isSuspended` and `isEmailVerified` values — the
operation never consults them and requires no prior password-stage success. -/
theorem verifyTOTPLogin_no_password_or_status_checks (u : UserRec) (email c sec : Str)
    (step now : Nat) (hemail : email ≠ [])
    (henab : u.totpEnabled = true) (hsec : u.totpSecret = some sec)
    (hc : c ≠ []) (hbc : hashPassword c ∈ u.backupCodes) :
    ((verifyTOTPLogin (some u) email (totpCode sec step) false step now).resp.status = 200 ∧
     (verifyTOTPLogin (some u) email (totpCode sec step) false step now).resp.message
       = LOGIN_SUCCESS ∧
     (verifyTOTPLogin (some u) email (totpCode sec step) false step now).tokens
       = some (generateTokenPair u now) ∧
     ∃ u2, (verifyTOTPLogin (some u) email (totpCode sec step) false step now).user = some u2 ∧
       u2.refreshTokenHash = some (hashPassword (generateTokenPair u now).2)) ∧
    ((verifyTOTPLogin (some u) email c true step now).resp.status = 200 ∧
     (verifyTOTPLogin (some u) email c true step now).tokens.isSome = true) := by
  have htok := totpCode_ne_nil sec step
  constructor
  · simp [verifyTOTPLogin, hemail, htok, henab, hsec, verifyTOTPToken_self, totpIssueTokens]
  · cases h' : verifyBackupCode c u.backupCodes with
    | none =>
      exact absurd hbc ((verifyBackupCode_eq_none c u.backupCodes).mp h')
    | some i =>
      constructor
      · simp [verifyTOTPLogin, hemail, hc, henab, h', totpIssueTokens]
      · simp [verifyTOTPLogin, hemail, hc, henab, h', totpIssueTokens]

/-- C6, witness: a suspended, locked, unverified user without any password
record still completes `verifyTOTPLogin` with a valid TOTP code and with a
stored backup code. -/
theorem verifyTOTPLogin_no_password_or_status_checks_witness :
    ((verifyTOTPLogin (some lockedTotpUser) ['e'] (totpCode ['s'] 7) false 7 50).resp.status
        = 200 ∧
     (verifyTOTPLogin (some lockedTotpUser) ['e'] (totpCode ['s'] 7) false 7 50).resp.message
        = LOGIN_SUCCESS ∧
     (verifyTOTPLogin (some lockedTotpUser) ['e'] (totpCode ['s'] 7) false 7 50).tokens
        = some (generateTokenPair lockedTotpUser 50) ∧
     ∃ u2, (verifyTOTPLogin (some lockedTotpUser) ['e'] (totpCode ['s'] 7) false 7 50).user
          = some u2 ∧
       u2.refreshTokenHash = some (hashPassword (generateTokenPair lockedTotpUser 50).2)) ∧
    ((verifyTOTPLogin (some lockedTotpUser) ['e'] ['b'] true 7 50).resp.status = 200 ∧
     (verifyTOTPLogin (some lockedTotpUser) ['e'] ['b'] true 7 50).tokens.isSome = true) :=
  verifyTOTPLogin_no_password_or_status_checks lockedTotpUser
    ['e'] ['b'] ['s'] 7 50 (by decide) (by decide) (by decide) (by decide) (by decide)

/-! ## Claim C7 — TOTP enablement issues 10 one-shot backup codes -/

theorem formatBackupCode_ne_nil (draw : Str) : formatBackupCode draw ≠ [] := by
  simp [formatBackupCode]

theorem mem_generateBackupCodes_ne_nil (c : Str) (n : Nat) (rand : Nat → Str)
    (h : c ∈ generateBackupCodes n rand) : c ≠ [] := by
  simp only [generateBackupCodes, List.mem_map] at h
  rcases h with ⟨i, _, rfl⟩
  exact formatBackupCode_ne_nil _

theorem hashPassword_injective {α : Type} : Function.Injective (hashPassword (α := α)) := by
  intro a b h
  simpa [hashPassword] using h

/-- C7: confirming TOTP setup with a valid code enables MFA, stores exactly
10 backup codes as bcrypt hashes only, and returns their plaintext in that
single response; afterwards each backup code logs in exactly once — a
successful `verifyTOTPLogin` splices its hash out of the stored list, so a
second presentation of the same code is rejected — provided the 10 random
draws are distinct. -/
theorem verifyAndEnableTOTP_backup_codes_single_use (u : UserRec) (sec email : Str)
    (step now now2 : Nat) (rand : Nat → Str) (hemail : email ≠ [])
    (hsec : u.totpSecret = some sec)
    (hnodup : (generateBackupCodes 10 rand).Nodup) :
    (generateBackupCodes 10 rand).length = 10 ∧
    verifyAndEnableTOTP (some u) (totpCode sec step) step rand =
      ⟨⟨200, true, "TOTP enabled successfully", none⟩,
        some (generateBackupCodes 10 rand),
        some { u with totpEnabled := true, totpVerified := true,
                      backupCodes := (generateBackupCodes 10 rand).map hashBackupCode }⟩ ∧
    ∀ c ∈ generateBackupCodes 10 rand,
      (verifyTOTPLogin
          (some { u with totpEnabled := true, totpVerified := true,
                         backupCodes := (generateBackupCodes 10 rand).map hashBackupCode })
          email c true step now).resp.status = 200 ∧
      ∃ u2, (verifyTOTPLogin
          (some { u with totpEnabled := true, totpVerified := true,
                         backupCodes := (generateBackupCodes 10 rand).map hashBackupCode })
          email c true step now).user = some u2 ∧
        (verifyTOTPLogin (some u2) email c true step now2).resp =
          ⟨401, false, "Invalid backup code", none⟩ := by
  refine ⟨by simp [generateBackupCodes], ?_, ?_⟩
  · simp [verifyAndEnableTOTP, totpCode_ne_nil, hsec, verifyTOTPToken_self]
  · intro c hcmem
    have hcne : c ≠ [] := mem_generateBackupCodes_ne_nil c 10 rand hcmem
    have hmem : hashPassword c ∈ (generateBackupCodes 10 rand).map hashBackupCode :=
      List.mem_map_of_mem hashBackupCode hcmem
    have hhnodup : ((generateBackupCodes 10 rand).map hashBackupCode).Nodup :=
      hnodup.map hashPassword_injective
    cases hscan : verifyBackupCode c ((generateBackupCodes 10 rand).map hashBackupCode) with
    | none => exact absurd hmem ((verifyBackupCode_eq_none _ _).mp hscan)
    | some i =>
      have hget := verifyBackupCode_some_getElem _ _ _ hscan
      have hgone : hashPassword c ∉
          ((generateBackupCodes 10 rand).map hashBackupCode).eraseIdx i :=
        not_mem_eraseIdx_of_nodup _ i _ hhnodup hget
      have hscan2 : verifyBackupCode c
          (((generateBackupCodes 10 rand).map hashBackupCode).eraseIdx i) = none :=
        (verifyBackupCode_eq_none _ _).mpr hgone
      refine ⟨?_, ?_⟩
      · simp [verifyTOTPLogin, hemail, hcne, hscan, totpIssueTokens]
      · refine ⟨{ u with
            totpEnabled := true, totpVerified := true,
            backupCodes := ((generateBackupCodes 10 rand).map hashBackupCode).eraseIdx i,
            refreshTokenHash :=
              some (hashPassword (⟨u.id, now, now + refreshTokenExpiryMs⟩ : RToken)),
            refreshTokenExpires := some (now + refreshTokenExpiryMs),
            lastLogin := some now }, ?_, ?_⟩
        · simp [verifyTOTPLogin, hemail, hcne, hscan, totpIssueTokens, generateTokenPair]
        · simp [verifyTOTPLogin, hemail, hcne, hscan2, totpIssueTokens]

/-- C7, witness: the single-use property at `lockedTotpUser` with the draws
`rand i = [toHex1 i]`, which yield ten distinct two-character codes. -/
theorem verifyAndEnableTOTP_backup_codes_single_use_witness :
    (generateBackupCodes 10 (fun i => [toHex1 i])).length = 10 ∧
    verifyAndEnableTOTP (some lockedTotpUser) (totpCode ['s'] 7) 7 (fun i => [toHex1 i]) =
      ⟨⟨200, true, "TOTP enabled successfully", none⟩,
        some (generateBackupCodes 10 (fun i => [toHex1 i])),
        some { lockedTotpUser with
                 totpEnabled := true, totpVerified := true,
                 backupCodes :=
                   (generateBackupCodes 10 (fun i => [toHex1 i])).map hashBackupCode }⟩ ∧
    ∀ c ∈ generateBackupCodes 10 (fun i => [toHex1 i]),
      (verifyTOTPLogin
          (some { lockedTotpUser with
                    totpEnabled := true, totpVerified := true,
                    backupCodes :=
                      (generateBackupCodes 10 (fun i => [toHex1 i])).map hashBackupCode })
          ['e'] c true 7 50).resp.status = 200 ∧
      ∃ u2, (verifyTOTPLogin
          (some { lockedTotpUser with
                    totpEnabled := true, totpVerified := true,
                    backupCodes :=
                      (generateBackupCodes 10 (fun i => [toHex1 i])).map hashBackupCode })
          ['e'] c true 7 50).user = some u2 ∧
        (verifyTOTPLogin (some u2) ['e'] c true 7 60).resp =
          ⟨401, false, "Invalid backup code", none⟩ :=
  verifyAndEnableTOTP_backup_codes_single_use lockedTotpUser ['s'] ['e'] 7 50 60
    (fun i => [toHex1 i]) (by decide) (by decide) (by decide)

/-! ## Claim C8 — password reset against the password history -/

/-- C8 (code bug): the history check of `resetPassword` compares the
candidate only against the *current* password hash (`isPasswordInHistory`
reads no ring — the schema stores none), and the subsequent
`user.addToPasswordHistory(user.password)` call names a method the user
model never defines: for every record with a stored password and a
non-reused new password, the controller ends in the thrown-`TypeError` 500
path with the stored record unchanged — the old hash is never pushed,
`passwordChangedAt`/`passwordExpiresAt` are never updated and the stored
refresh-token hash is never invalidated. -/
theorem resetPassword_throws_for_local_users (u : UserRec) (old new : Str) (now : Nat)
    (hpw : u.password = some (hashPassword old)) (hnew : new ≠ old) :
    resetPassword (some u) old now =
      ⟨⟨400, false, "Cannot reuse your last undefined passwords", none⟩, some u⟩ ∧
    resetPassword (some u) new now = ⟨serverErrorResp, some u⟩ := by
  constructor
  · simp [resetPassword, isPasswordInHistory, hpw, comparePassword_hashPassword_self]
  · simp [resetPassword, isPasswordInHistory, hpw,
      comparePassword_hashPassword_ne new old hnew]

/-- C8, witness: the evaluation applied to `sampleUser` (current password
`"p"`, new password `"n"`). -/
theorem resetPassword_throws_for_local_users_witness :
    resetPassword (some sampleUser) ['p'] 0 =
      ⟨⟨400, false, "Cannot reuse your last undefined passwords", none⟩, some sampleUser⟩ ∧
    resetPassword (some sampleUser) ['n'] 0 = ⟨serverErrorResp, some sampleUser⟩ :=
  resetPassword_throws_for_local_users sampleUser ['p'] ['n'] 0 (by decide) (by decide)

/-! ## Claim C9 — TOTP replay inside the validity window -/

/-- C9, counterexample: immediately after a successful TOTP login, a second
`verifyTOTPLogin` presenting the exact same code at the same time step
succeeds again with 200, where the claim demands a rejection. -/
theorem verifyTOTPLogin_replay_accepted_concrete :
    (verifyTOTPLogin (some lockedTotpUser) ['e'] (totpCode ['s'] 100) false 100 50).resp.status
      = 200 ∧
    (verifyTOTPLogin
        (verifyTOTPLogin (some lockedTotpUser) ['e'] (totpCode ['s'] 100) false 100 50).user
        ['e'] (totpCode ['s'] 100) false 100 60).resp.status = 200 := by
  decide

/-- C9 (amended): `verifyTOTPLogin` keeps no record of the last accepted
time step, so a TOTP code valid for the current step is accepted again on an
immediate replay for the same identity; only backup codes are consumed on
use. -/
theorem verifyTOTPLogin_replay_accepted (u : UserRec) (email sec : Str)
    (step now now2 : Nat) (hemail : email ≠ [])
    (henab : u.totpEnabled = true) (hsec : u.totpSecret = some sec) :
    (verifyTOTPLogin (some u) email (totpCode sec step) false step now).resp.status = 200 ∧
    ∃ u2, (verifyTOTPLogin (some u) email (totpCode sec step) false step now).user = some u2 ∧
      (verifyTOTPLogin (some u2) email (totpCode sec step) false step now2).resp.status
        = 200 := by
  have htok := totpCode_ne_nil sec step
  refine ⟨?_, ?_⟩
  · simp [verifyTOTPLogin, hemail, htok, henab, hsec, verifyTOTPToken_self, totpIssueTokens]
  · refine ⟨{ u with
        refreshTokenHash :=
          some (hashPassword (⟨u.id, now, now + refreshTokenExpiryMs⟩ : RToken)),
        refreshTokenExpires := some (now + refreshTokenExpiryMs),
        lastLogin := some now }, ?_, ?_⟩
    · simp [verifyTOTPLogin, hemail, htok, henab, hsec, verifyTOTPToken_self,
        totpIssueTokens, generateTokenPair]
    · simp [verifyTOTPLogin, hemail, htok, henab, hsec, verifyTOTPToken_self,
        totpIssueTokens]

/-- C9, witness: the replay theorem applied to `lockedTotpUser` at step 100,
first login at `now = 50`, replay at `now2 = 60`. -/
theorem verifyTOTPLogin_replay_accepted_witness :
    (verifyTOTPLogin (some lockedTotpUser) ['e'] (totpCode ['s'] 100) false 100 50).resp.status
      = 200 ∧
    ∃ u2, (verifyTOTPLogin (some lockedTotpUser) ['e'] (totpCode ['s'] 100) false 100 50).user
        = some u2 ∧
      (verifyTOTPLogin (some u2) ['e'] (totpCode ['s'] 100) false 100 60).resp.status = 200 :=
  verifyTOTPLogin_replay_accepted lockedTotpUser ['e'] ['s'] 100 50 60
    (by decide) (by decide) (by decide)

end AuthCore
